import Mathlib

/-!
Verification of the gearbox vibration-analysis core: the preprocessing
(conditioning and feature extraction) in `backend/preprocessor.py` and the
rule-based fault classifier in `backend/analyzer.py`, embedded shallowly
over exact real numbers.
-/

noncomputable section

namespace Gearbox

/-- Arithmetic mean of a list, `np.mean`; division by zero (empty list)
yields 0 in this embedding. -/
def mean (x : List ℝ) : ℝ := x.sum / x.length

/-- Population standard deviation, `np.std` (ddof = 0). -/
def std (x : List ℝ) : ℝ := Real.sqrt (mean (x.map fun v => (v - mean x) ^ 2))

/-- Mean square of a list, `np.mean(signal_data**2)`. -/
def meanSq (x : List ℝ) : ℝ := mean (x.map fun v => v ^ 2)

/-- Root mean square, `np.sqrt(np.mean(signal_data**2))`. -/
def rms (x : List ℝ) : ℝ := Real.sqrt (meanSq x)

/-- Peak absolute amplitude, `np.max(np.abs(signal_data))`; folded from 0,
which agrees with numpy on every nonempty list since the entries are
absolute values. -/
def peak (x : List ℝ) : ℝ := (x.map fun v => |v|).foldl max 0

/-- Peak-to-peak amplitude, `np.ptp` = max - min. -/
def peakToPeak (x : List ℝ) : ℝ :=
  x.foldl max (x.headD 0) - x.foldl min (x.headD 0)

/-- `DataPreprocessor._kurtosis`: 0 for n < 4 or zero deviation, else the
bias-corrected fourth-moment estimator normalised by the population std. -/
def kurtosis (x : List ℝ) : ℝ :=
  let n : ℕ := x.length
  if n < 4 then 0
  else if std x = 0 then 0
  else
    (n * (n + 1) / ((n - 1) * (n - 2) * (n - 3) : ℝ)) *
      (x.map fun v => ((v - mean x) / std x) ^ 4).sum -
    3 * ((n : ℝ) - 1) ^ 2 / (((n : ℝ) - 2) * ((n : ℝ) - 3))

/-- `DataPreprocessor._skewness`: 0 for n < 3 or zero deviation, else the
bias-corrected third-moment estimator normalised by the population std. -/
def skewness (x : List ℝ) : ℝ :=
  let n : ℕ := x.length
  if n < 3 then 0
  else if std x = 0 then 0
  else (n / (((n : ℝ) - 1) * ((n : ℝ) - 2))) *
    (x.map fun v => ((v - mean x) / std x) ^ 3).sum

/-- Time-domain feature record produced by
`DataPreprocessor._extract_time_features`. -/
structure TimeFeatures where
  mean : ℝ
  std : ℝ
  rms : ℝ
  peak : ℝ
  peak_to_peak : ℝ
  crest_factor : ℝ
  kurtosis : ℝ
  skewness : ℝ

/-- `DataPreprocessor._extract_time_features`. -/
def extractTimeFeatures (x : List ℝ) : TimeFeatures where
  mean := mean x
  std := std x
  rms := rms x
  peak := peak x
  peak_to_peak := peakToPeak x
  crest_factor := if meanSq x > 0 then peak x / rms x else 0
  kurtosis := kurtosis x
  skewness := skewness x

/-- The three named frequency bands returned by
`DataPreprocessor._compute_band_powers` (insertion order low, mid, high). -/
structure FrequencyBands where
  low : ℝ
  mid : ℝ
  high : ℝ

/-- Frequency-domain feature record produced by
`DataPreprocessor._extract_frequency_features`. -/
structure FreqFeatures where
  peak_frequency : ℝ
  spectral_power : ℝ
  frequency_bands : FrequencyBands

/-- Sum of the three band powers, `sum(band_powers.values())`. -/
def FrequencyBands.total (b : FrequencyBands) : ℝ := b.low + b.mid + b.high

/-- Population standard deviation of the three band powers,
`np.std(list(band_powers.values()))`. -/
def FrequencyBands.std (b : FrequencyBands) : ℝ :=
  Gearbox.std [b.low, b.mid, b.high]

/-- `VibrationAnalyzer._calculate_fault_score`: weighted combination of four
clamped sub-scores, finally clamped above by 1. -/
def calculateFaultScore (tf : TimeFeatures) (ff : FreqFeatures) : ℝ :=
  let rms_score := min (tf.rms / 10) 1
  let kurtosis_score := min (|tf.kurtosis| / 10) 1
  let crest_score := min (tf.crest_factor / 10) 1
  let band_imbalance :=
    if ff.frequency_bands.total > 0 then
      ff.frequency_bands.std / (ff.frequency_bands.total / 3)
    else 0
  let band_score := min band_imbalance 1
  min (0.3 * rms_score + 0.3 * kurtosis_score +
       0.2 * crest_score + 0.2 * band_score) 1

/-- `Config.DAMAGE_LEVELS`: ordered label/interval table. -/
def damageLevels : List (String × ℝ × ℝ) :=
  [("healthy", 0, 0.2), ("slight", 0.2, 0.4), ("moderate", 0.4, 0.6),
   ("severe", 0.6, 0.8), ("critical", 0.8, 1)]

/-- The loop body of `VibrationAnalyzer._classify_damage_level`: first entry
whose half-open interval contains the score, defaulting to critical. -/
def classifyAux : List (String × ℝ × ℝ) → ℝ → String
  | [], _ => "critical"
  | (lvl, lo, hi) :: rest, s => if lo ≤ s ∧ s < hi then lvl else classifyAux rest s

/-- `VibrationAnalyzer._classify_damage_level`. -/
def classifyDamageLevel (s : ℝ) : String := classifyAux damageLevels s

/-- The five damage-level labels. -/
def damageLabels : List String :=
  ["healthy", "slight", "moderate", "severe", "critical"]

/-- One-sided discrete Fourier transform of a real signal, `np.fft.rfft`:
coefficients k = 0 .. n/2 of the DFT. -/
def rfft (x : List ℝ) : List ℂ :=
  (List.range (x.length / 2 + 1)).map fun k : ℕ =>
    ∑ j ∈ Finset.range x.length,
      (x.getD j 0 : ℂ) *
        Complex.exp (-(2 * Real.pi * Complex.I * (j : ℂ) * (k : ℂ)) /
          (x.length : ℂ))

/-- Magnitude spectrum, `np.abs(np.fft.rfft(signal_data))`. -/
def rfftMag (x : List ℝ) : List ℝ := (rfft x).map Complex.abs

/-- One-sided frequency grid, `np.fft.rfftfreq(n, 1/sampling_rate)`:
bin k sits at k·fs/n. -/
def rfftfreq (n : ℕ) (fs : ℝ) : List ℝ :=
  (List.range (n / 2 + 1)).map fun k : ℕ => (k : ℝ) * fs / (n : ℝ)

/-- Helper for `np.argmax`: scan keeping the first index of the maximum. -/
def argmaxAux : List ℝ → ℕ → ℕ → ℝ → ℕ
  | [], _, bi, _ => bi
  | v :: rest, i, bi, bv =>
    if v > bv then argmaxAux rest (i + 1) i v else argmaxAux rest (i + 1) bi bv

/-- `np.argmax`: first index of the maximum value (0 on the empty list). -/
def argmax : List ℝ → ℕ
  | [] => 0
  | v :: rest => argmaxAux rest 1 0 v

/-- Summed squared magnitude over a half-open frequency mask, the body of
`DataPreprocessor._compute_band_powers` for one band:
`np.sum(magnitude[(freq >= low) & (freq < high)]**2)`. -/
def bandPower (freq mag : List ℝ) (lo hi : ℝ) : ℝ :=
  ((freq.zip mag).map fun p =>
    if lo ≤ p.1 ∧ p.1 < hi then p.2 ^ 2 else 0).sum

/-- `DataPreprocessor._compute_band_powers` over the fixed band table
low = [0,500), mid = [500,2000), high = [2000,5000). -/
def computeBandPowers (freq mag : List ℝ) : FrequencyBands where
  low := bandPower freq mag 0 500
  mid := bandPower freq mag 500 2000
  high := bandPower freq mag 2000 5000

/-- `DataPreprocessor._extract_frequency_features`. -/
def extractFreqFeatures (fs : ℝ) (x : List ℝ) : FreqFeatures :=
  let mag := rfftMag x
  let freq := rfftfreq x.length fs
  { peak_frequency := freq.getD (argmax mag) 0
    spectral_power := (mag.map fun m => m ^ 2).sum
    frequency_bands := computeBandPowers freq mag }

/-- A fault-type hypothesis as appended by
`VibrationAnalyzer._detect_fault_types`. -/
structure FaultType where
  type : String
  confidence : ℝ
  description : String
deriving DecidableEq

/-- `VibrationAnalyzer._detect_fault_types`: four independent rules appending
hypotheses in a fixed order, then the general-abnormality fallback when the
list is still empty and rms exceeds 5. -/
def detectFaultTypes (tf : TimeFeatures) (ff : FreqFeatures) : List FaultType :=
  let faults : List FaultType := []
  let faults := if tf.kurtosis > 5 then
    faults ++ [⟨"bearing_fault", min (tf.kurtosis / 10) 1,
      "Possible bearing defect detected"⟩] else faults
  let faults := if ff.peak_frequency < 100 then
    faults ++ [⟨"unbalance", 0.6, "Possible rotor unbalance detected"⟩]
    else faults
  let faults := if ff.frequency_bands.high > ff.frequency_bands.low * 0.5 then
    faults ++ [⟨"misalignment", 0.5, "Possible shaft misalignment detected"⟩]
    else faults
  let faults := if 500 < ff.peak_frequency ∧ ff.peak_frequency < 2000 then
    faults ++ [⟨"gear_fault", 0.6, "Possible gear mesh fault detected"⟩]
    else faults
  if faults = [] ∧ tf.rms > 5 then
    faults ++ [⟨"general_abnormality", 0.5, "Abnormal vibration levels detected"⟩]
  else faults

/-- The damage-level-keyed strings of
`VibrationAnalyzer._generate_recommendations` (the if/elif chain). -/
def levelRecs (dl : String) : List String :=
  if dl = "healthy" then
    ["System is operating normally. Continue routine monitoring."]
  else if dl = "slight" then
    ["Minor abnormalities detected. Increase monitoring frequency."]
  else if dl = "moderate" then
    ["Moderate wear detected. Schedule inspection within 2-4 weeks."]
  else if dl = "severe" then
    ["Severe damage detected. Schedule immediate inspection.",
     "Consider reducing operational load until maintenance."]
  else if dl = "critical" then
    ["CRITICAL: Shutdown recommended to prevent catastrophic failure.",
     "Immediate maintenance required."]
  else []

/-- The fault-type-keyed strings of
`VibrationAnalyzer._generate_recommendations` (the loop body's if/elif
chain); types matching no branch contribute nothing. -/
def faultRec (t : String) : List String :=
  if t = "bearing_fault" then
    ["Inspect bearings for wear, contamination, or lubrication issues."]
  else if t = "unbalance" then
    ["Check rotor balance and perform balancing if necessary."]
  else if t = "misalignment" then
    ["Check shaft alignment and realign if necessary."]
  else if t = "gear_fault" then
    ["Inspect gear teeth for wear, pitting, or damage."]
  else []

/-- `VibrationAnalyzer._generate_recommendations`: level strings first, then
the loop over detected hypotheses appending their keyed strings. -/
def generateRecommendations (dl : String) (fts : List FaultType) : List String :=
  fts.foldl (fun acc f => acc ++ faultRec f.type) (levelRecs dl)

/-- DC removal in `DataPreprocessor.preprocess`:
`signal_data - np.mean(signal_data)`. -/
def zeroMean (x : List ℝ) : List ℝ := x.map fun v => v - mean x

/-- The conditioning steps of `DataPreprocessor.preprocess`: remove the mean,
then, when the length exceeds 100, attempt the Butterworth band-pass
(`scipy.signal.butter` + `filtfilt`, modelled as the abstract fallible
function `filt` since scipy is an external collaborator); any failure is
swallowed and the zero-mean signal kept. -/
def condition (filt : List ℝ → Option (List ℝ)) (x : List ℝ) : List ℝ :=
  let z := zeroMean x
  if 100 < z.length then
    match filt z with
    | some y => y
    | none => z
  else z

/-- Written from the spec's words (§4.3 fault score): four clamped
sub-scores, the band ratio defined as 0 when the total band power is 0,
and the weighted sum clamped to [0,1]. Kept separate from
`calculateFaultScore` so the refinement can be stated as an equality. -/
def specFaultScore (tf : TimeFeatures) (ff : FreqFeatures) : ℝ :=
  let rms_score := min (tf.rms / 10) 1
  let kurtosis_score := min (|tf.kurtosis| / 10) 1
  let crest_score := min (tf.crest_factor / 10) 1
  let band_ratio :=
    if ff.frequency_bands.total = 0 then 0
    else ff.frequency_bands.std / (ff.frequency_bands.total / 3)
  let band_score := min band_ratio 1
  max 0 (min (0.3 * rms_score + 0.3 * kurtosis_score +
              0.2 * crest_score + 0.2 * band_score) 1)

/-- Record of all-zero time features, the feature record of a zero signal. -/
def tfZero : TimeFeatures := ⟨0, 0, 0, 0, 0, 0, 0, 0⟩

/-- Record of all-zero frequency features. -/
def ffZero : FreqFeatures := ⟨0, 0, ⟨0, 0, 0⟩⟩

/-! ## Basic facts about the embedded operations -/

lemma le_foldl_max (l : List ℝ) (a : ℝ) : a ≤ l.foldl max a := by
  induction l generalizing a with
  | nil => exact le_refl a
  | cons v rest ih => exact le_trans (le_max_left a v) (ih (max a v))

lemma peak_nonneg (x : List ℝ) : 0 ≤ peak x := le_foldl_max _ 0

lemma rms_nonneg (x : List ℝ) : 0 ≤ rms x := Real.sqrt_nonneg _

lemma extract_rms_nonneg (x : List ℝ) : 0 ≤ (extractTimeFeatures x).rms :=
  rms_nonneg x

lemma extract_crest_nonneg (x : List ℝ) :
    0 ≤ (extractTimeFeatures x).crest_factor := by
  simp only [extractTimeFeatures]
  split_ifs with h
  · exact div_nonneg (peak_nonneg x) (rms_nonneg x)
  · exact le_refl 0

lemma bands_std_nonneg (b : FrequencyBands) : 0 ≤ b.std :=
  Real.sqrt_nonneg _

lemma calculateFaultScore_mem (tf : TimeFeatures) (ff : FreqFeatures)
    (h1 : 0 ≤ tf.rms) (h2 : 0 ≤ tf.crest_factor) :
    calculateFaultScore tf ff ∈ Set.Icc (0 : ℝ) 1 := by
  have hb : (0 : ℝ) ≤ (if ff.frequency_bands.total > 0 then
      ff.frequency_bands.std / (ff.frequency_bands.total / 3) else 0) := by
    split_ifs with h
    · exact div_nonneg (bands_std_nonneg _) (by linarith)
    · exact le_refl 0
  have r1 : (0 : ℝ) ≤ min (tf.rms / 10) 1 :=
    le_min (by positivity) zero_le_one
  have r2 : (0 : ℝ) ≤ min (|tf.kurtosis| / 10) 1 :=
    le_min (by positivity) zero_le_one
  have r3 : (0 : ℝ) ≤ min (tf.crest_factor / 10) 1 :=
    le_min (by positivity) zero_le_one
  have r4 : (0 : ℝ) ≤ min (if ff.frequency_bands.total > 0 then
      ff.frequency_bands.std / (ff.frequency_bands.total / 3) else 0) 1 :=
    le_min hb zero_le_one
  constructor
  · refine le_min ?_ zero_le_one
    nlinarith [r1, r2, r3, r4]
  · exact min_le_right _ _

lemma classifyDamageLevel_mem (s : ℝ) : classifyDamageLevel s ∈ damageLabels := by
  simp only [classifyDamageLevel, damageLevels, classifyAux, damageLabels]
  split_ifs <;> simp

/-! ## Claim theorems -/

/-- Claim C1: every signal run through extraction then classification yields a
fault score inside [0,1] and a damage level among the five defined labels. -/
theorem pipeline_score_unit_and_label (fs : ℝ) (x : List ℝ) :
    calculateFaultScore (extractTimeFeatures x) (extractFreqFeatures fs x) ∈
      Set.Icc (0 : ℝ) 1 ∧
    classifyDamageLevel
      (calculateFaultScore (extractTimeFeatures x) (extractFreqFeatures fs x)) ∈
      damageLabels :=
  ⟨calculateFaultScore_mem _ _ (extract_rms_nonneg x) (extract_crest_nonneg x),
   classifyDamageLevel_mem _⟩

lemma classifyDamageLevel_eq_ite (s : ℝ) :
    classifyDamageLevel s =
      if 0 ≤ s ∧ s < 0.2 then "healthy"
      else if 0.2 ≤ s ∧ s < 0.4 then "slight"
      else if 0.4 ≤ s ∧ s < 0.6 then "moderate"
      else if 0.6 ≤ s ∧ s < 0.8 then "severe"
      else if 0.8 ≤ s ∧ s < 1 then "critical"
      else "critical" := by
  simp [classifyDamageLevel, damageLevels, classifyAux]

/-- Claim C5: the classifier returns the label of the (unique, hence first)
table entry whose half-open interval contains the score, returns critical
when no interval matches, and for scores inside [0,1] the no-match case
happens exactly at score 1. -/
theorem damage_level_first_interval (s : ℝ) :
    (∀ e ∈ damageLevels, e.2.1 ≤ s ∧ s < e.2.2 → classifyDamageLevel s = e.1) ∧
    ((∀ e ∈ damageLevels, ¬(e.2.1 ≤ s ∧ s < e.2.2)) →
      classifyDamageLevel s = "critical") ∧
    (0 ≤ s → s ≤ 1 →
      ((∀ e ∈ damageLevels, ¬(e.2.1 ≤ s ∧ s < e.2.2)) ↔ s = 1)) := by
  rw [classifyDamageLevel_eq_ite]
  refine ⟨?_, ?_, ?_⟩
  · intro e he hmem
    simp only [damageLevels, List.mem_cons, List.not_mem_nil, or_false] at he
    rcases he with h | h | h | h | h <;> subst h <;>
      simp only at hmem <;> split_ifs with h1 h2 h3 h4 h5 <;>
      first | rfl | (exfalso; rcases hmem with ⟨ha, hb⟩; norm_num at * <;> linarith)
  · intro hnone
    simp only [damageLevels, List.mem_cons, forall_eq_or_imp] at hnone
    obtain ⟨n1, n2, n3, n4, n5, -⟩ := hnone
    rw [if_neg n1, if_neg n2, if_neg n3, if_neg n4, if_neg n5]
  · intro h0 h1
    constructor
    · intro hnone
      simp only [damageLevels, List.mem_cons, forall_eq_or_imp] at hnone
      obtain ⟨n1, n2, n3, n4, n5, -⟩ := hnone
      push_neg at n1 n2 n3 n4 n5
      exact le_antisymm h1 (n5 (n4 (n3 (n2 (n1 h0)))))
    · intro hs e he
      subst hs
      simp only [damageLevels, List.mem_cons, List.not_mem_nil, or_false] at he
      rcases he with h | h | h | h | h <;> subst h <;> norm_num

/-- Closed instance of the C5 theorem: a score of 1/2 falls in the moderate
interval and is classified moderate. -/
theorem damage_level_first_interval_witness :
    classifyDamageLevel (1 / 2 : ℝ) = "moderate" :=
  (damage_level_first_interval (1 / 2)).1 ("moderate", 0.4, 0.6)
    (by norm_num [damageLevels]) (by norm_num)

lemma foldl_append_faultRec (fts : List FaultType) (init : List String) :
    fts.foldl (fun acc f => acc ++ faultRec f.type) init =
      init ++ fts.flatMap fun f => faultRec f.type := by
  induction fts generalizing init with
  | nil => simp
  | cons f rest ih => simp [ih]

lemma levelRecs_ne_nil_of_label (dl : String) (h : dl ∈ damageLabels) :
    levelRecs dl ≠ [] := by
  simp only [damageLabels, List.mem_cons, List.not_mem_nil, or_false] at h
  rcases h with h | h | h | h | h <;> subst h <;> simp [levelRecs]

/-- Claim C10: every analysis result carries at least one recommendation:
the damage classifier always lands in the five-label table, and each label
keys at least one fixed recommendation string. -/
theorem recommendations_nonempty (s : ℝ) (fts : List FaultType) :
    generateRecommendations (classifyDamageLevel s) fts ≠ [] := by
  have h2 : levelRecs (classifyDamageLevel s) ≠ [] :=
    levelRecs_ne_nil_of_label _ (classifyDamageLevel_mem s)
  simp only [generateRecommendations, foldl_append_faultRec, ne_eq,
    List.append_eq_nil]
  exact fun h => h2 h.1

/-- Claim C3: fault-type detection is exactly the four non-exclusive rules in
the fixed order bearing_fault, unbalance, misalignment, gear_fault (several
may fire at once), with general_abnormality appended precisely when none of
the four fired and rms exceeds 5. -/
theorem detect_fault_types_rules (tf : TimeFeatures) (ff : FreqFeatures) :
    detectFaultTypes tf ff =
      (if tf.kurtosis > 5 then
        [⟨"bearing_fault", min (tf.kurtosis / 10) 1,
          "Possible bearing defect detected"⟩] else []) ++
      (if ff.peak_frequency < 100 then
        [⟨"unbalance", 0.6, "Possible rotor unbalance detected"⟩] else []) ++
      (if ff.frequency_bands.high > ff.frequency_bands.low * 0.5 then
        [⟨"misalignment", 0.5, "Possible shaft misalignment detected"⟩]
        else []) ++
      (if 500 < ff.peak_frequency ∧ ff.peak_frequency < 2000 then
        [⟨"gear_fault", 0.6, "Possible gear mesh fault detected"⟩] else []) ++
      (if ¬tf.kurtosis > 5 ∧ ¬ff.peak_frequency < 100 ∧
          ¬ff.frequency_bands.high > ff.frequency_bands.low * 0.5 ∧
          ¬(500 < ff.peak_frequency ∧ ff.peak_frequency < 2000) ∧
          tf.rms > 5 then
        [⟨"general_abnormality", 0.5, "Abnormal vibration levels detected"⟩]
        else []) := by
  by_cases hk : tf.kurtosis > 5 <;>
  by_cases hp : ff.peak_frequency < 100 <;>
  by_cases hm : ff.frequency_bands.high > ff.frequency_bands.low * 0.5 <;>
  by_cases hg : 500 < ff.peak_frequency ∧ ff.peak_frequency < 2000 <;>
  by_cases hr : tf.rms > 5 <;>
  simp [detectFaultTypes, hk, hp, hm, hg, hr]

/-- Claim C2: on feature records satisfying the data-model invariants
(rms, crest factor and the three band powers are non-negative, which every
extracted record satisfies), the implemented fault score coincides with the
spec formula, including the clamp to [0,1] and the zero-total band rule. -/
theorem fault_score_formula (tf : TimeFeatures) (ff : FreqFeatures)
    (h1 : 0 ≤ tf.rms) (h2 : 0 ≤ tf.crest_factor)
    (h3 : 0 ≤ ff.frequency_bands.low) (h4 : 0 ≤ ff.frequency_bands.mid)
    (h5 : 0 ≤ ff.frequency_bands.high) :
    calculateFaultScore tf ff = specFaultScore tf ff := by
  have htot : 0 ≤ ff.frequency_bands.total := by
    simp only [FrequencyBands.total]; linarith
  have hratio : (if ff.frequency_bands.total > 0 then
        ff.frequency_bands.std / (ff.frequency_bands.total / 3) else 0) =
      (if ff.frequency_bands.total = 0 then 0
        else ff.frequency_bands.std / (ff.frequency_bands.total / 3)) := by
    rcases eq_or_lt_of_le htot with h | h
    · rw [if_neg (by linarith), if_pos h.symm]
    · rw [if_pos h, if_neg h.ne']
  have hb : (0 : ℝ) ≤ (if ff.frequency_bands.total > 0 then
      ff.frequency_bands.std / (ff.frequency_bands.total / 3) else 0) := by
    split_ifs with h
    · exact div_nonneg (bands_std_nonneg _) (by linarith)
    · exact le_refl 0
  have r1 : (0 : ℝ) ≤ min (tf.rms / 10) 1 :=
    le_min (by positivity) zero_le_one
  have r2 : (0 : ℝ) ≤ min (|tf.kurtosis| / 10) 1 :=
    le_min (by positivity) zero_le_one
  have r3 : (0 : ℝ) ≤ min (tf.crest_factor / 10) 1 :=
    le_min (by positivity) zero_le_one
  have r4 : (0 : ℝ) ≤ min (if ff.frequency_bands.total > 0 then
      ff.frequency_bands.std / (ff.frequency_bands.total / 3) else 0) 1 :=
    le_min hb zero_le_one
  simp only [calculateFaultScore, specFaultScore, ← hratio]
  rw [max_eq_right]
  refine le_min ?_ zero_le_one
  nlinarith [r1, r2, r3, r4]

/-- Closed instance of the C2 theorem at the all-zero feature records. -/
theorem fault_score_formula_witness :
    (0 : ℝ) ≤ tfZero.rms ∧
      calculateFaultScore tfZero ffZero = specFaultScore tfZero ffZero :=
  ⟨le_refl 0, fault_score_formula tfZero ffZero (le_refl 0) (le_refl 0)
    (le_refl 0) (le_refl 0) (le_refl 0)⟩

lemma zeroMean_length (x : List ℝ) : (zeroMean x).length = x.length := by
  simp [zeroMean]

/-- Claim C7: conditioning is total: the output is either the zero-mean
sequence or a successful filtering of it, the filter is attempted only when
the length exceeds 100, a filter failure falls back to the zero-mean
sequence, and — given the filter's same-length contract, documented for
scipy.signal.filtfilt — the output length equals the input length. -/
theorem conditioning_total_and_length
    (filt : List ℝ → Option (List ℝ)) (x : List ℝ)
    (hlen : ∀ z y, filt z = some y → y.length = z.length) :
    (condition filt x).length = x.length ∧
    (x.length ≤ 100 → condition filt x = zeroMean x) ∧
    (filt (zeroMean x) = none → condition filt x = zeroMean x) ∧
    (condition filt x = zeroMean x ∨
      ∃ y, 100 < x.length ∧ filt (zeroMean x) = some y ∧
        condition filt x = y) := by
  have hzl : (zeroMean x).length = x.length := zeroMean_length x
  simp only [condition]
  by_cases hc : 100 < (zeroMean x).length
  · rw [if_pos hc]
    cases hfz : filt (zeroMean x) with
    | none =>
      exact ⟨hzl, fun _ => rfl, fun _ => rfl, Or.inl rfl⟩
    | some y =>
      refine ⟨(hlen _ y hfz).trans hzl, ?_, ?_, ?_⟩
      · intro h
        rw [hzl] at hc
        exact absurd h (not_le.mpr hc)
      · intro h
        exact nomatch h
      · exact Or.inr ⟨y, hzl ▸ hc, rfl, rfl⟩
  · rw [if_neg hc]
    exact ⟨hzl, fun _ => rfl, fun _ => rfl, Or.inl rfl⟩

/-- Closed instance of the C7 theorem: with an always-failing filter the
conditioned length of a 3-sample input is 3. -/
theorem conditioning_total_and_length_witness :
    (condition (fun _ => (none : Option (List ℝ))) [1, 2, 3]).length =
      ([1, 2, 3] : List ℝ).length :=
  (conditioning_total_and_length (fun _ => none) [1, 2, 3]
    (fun _ y h => nomatch h)).1

lemma three_band_sum_le (l : List (ℝ × ℝ)) :
    (l.map fun p => if 0 ≤ p.1 ∧ p.1 < 500 then p.2 ^ 2 else 0).sum +
      (l.map fun p => if 500 ≤ p.1 ∧ p.1 < 2000 then p.2 ^ 2 else 0).sum +
      (l.map fun p => if 2000 ≤ p.1 ∧ p.1 < 5000 then p.2 ^ 2 else 0).sum ≤
      (l.map fun p => p.2 ^ 2).sum := by
  induction l with
  | nil => simp
  | cons p rest ih =>
    simp only [List.map_cons, List.sum_cons]
    have hsq : (0 : ℝ) ≤ p.2 ^ 2 := sq_nonneg _
    have hp : (if 0 ≤ p.1 ∧ p.1 < 500 then p.2 ^ 2 else 0) +
        (if 500 ≤ p.1 ∧ p.1 < 2000 then p.2 ^ 2 else 0) +
        (if 2000 ≤ p.1 ∧ p.1 < 5000 then p.2 ^ 2 else 0) ≤ p.2 ^ 2 := by
      split_ifs <;> linarith
    linarith

lemma map_snd_sq_zip (freq mag : List ℝ) (h : mag.length ≤ freq.length) :
    ((freq.zip mag).map fun p => p.2 ^ 2).sum = (mag.map fun m => m ^ 2).sum := by
  have hz : ((freq.zip mag).map fun p => p.2 ^ 2) = mag.map fun m => m ^ 2 := by
    rw [show (fun p : ℝ × ℝ => p.2 ^ 2) = (fun m => m ^ 2) ∘ Prod.snd from rfl,
      ← List.map_map, List.map_snd_zip _ _ h]
  rw [hz]

/-- Claim C6: for every waveform the three half-open band powers sum to at
most the spectral power of the full one-sided spectrum. -/
theorem band_partition_le_spectral_power (fs : ℝ) (x : List ℝ) :
    (extractFreqFeatures fs x).frequency_bands.total ≤
      (extractFreqFeatures fs x).spectral_power := by
  have hlen : (rfftMag x).length ≤ (rfftfreq x.length fs).length := by
    simp only [rfftMag, rfft, rfftfreq, List.length_map, List.length_range]
    omega
  calc (extractFreqFeatures fs x).frequency_bands.total =
      ((((rfftfreq x.length fs).zip (rfftMag x)).map fun p =>
          if 0 ≤ p.1 ∧ p.1 < 500 then p.2 ^ 2 else 0).sum +
        ((((rfftfreq x.length fs).zip (rfftMag x))).map fun p =>
          if 500 ≤ p.1 ∧ p.1 < 2000 then p.2 ^ 2 else 0).sum +
        ((((rfftfreq x.length fs).zip (rfftMag x))).map fun p =>
          if 2000 ≤ p.1 ∧ p.1 < 5000 then p.2 ^ 2 else 0).sum) := by
        simp [extractFreqFeatures, FrequencyBands.total, computeBandPowers,
          bandPower]
    _ ≤ (((rfftfreq x.length fs).zip (rfftMag x)).map fun p => p.2 ^ 2).sum :=
        three_band_sum_le _
    _ = ((rfftMag x).map fun m => m ^ 2).sum := map_snd_sq_zip _ _ hlen
    _ = (extractFreqFeatures fs x).spectral_power := by
        simp [extractFreqFeatures]

/-- Counterexample to claim C8 as stated: with damage level healthy and the
single detected hypothesis general_abnormality, the recommendations are not
the level strings followed by one fixed string for that hypothesis — the
loop in `_generate_recommendations` has no branch for general_abnormality,
so nothing is appended. -/
theorem recommendations_per_hypothesis_counterexample :
    ¬ ∃ srec : String,
      generateRecommendations "healthy"
          [⟨"general_abnormality", 0.5, "Abnormal vibration levels detected"⟩] =
        levelRecs "healthy" ++ [srec] := by
  rintro ⟨srec, h⟩
  simp [generateRecommendations, levelRecs, faultRec] at h

/-- Claim C8 (amended): recommendations are generated deterministically as
the one or two fixed strings keyed by the damage level, followed by one
fixed string per distinct specific fault-type hypothesis (bearing_fault,
unbalance, misalignment, gear_fault) in the order the hypotheses were
detected; a general_abnormality hypothesis contributes no string. -/
theorem recommendations_structure (dl : String) (fts : List FaultType) :
    generateRecommendations dl fts =
      levelRecs dl ++ fts.flatMap (fun f => faultRec f.type) ∧
    (dl ∈ damageLabels →
      (levelRecs dl).length = 1 ∨ (levelRecs dl).length = 2) ∧
    (∀ f ∈ fts,
      ((f.type = "bearing_fault" ∨ f.type = "unbalance" ∨
        f.type = "misalignment" ∨ f.type = "gear_fault") →
        (faultRec f.type).length = 1) ∧
      (f.type = "general_abnormality" → faultRec f.type = [])) := by
  refine ⟨foldl_append_faultRec fts (levelRecs dl), ?_, ?_⟩
  · intro h
    simp only [damageLabels, List.mem_cons, List.not_mem_nil, or_false] at h
    rcases h with h | h | h | h | h <;> subst h <;> simp [levelRecs]
  · intro f _
    constructor
    · rintro (h | h | h | h) <;> simp [faultRec, h]
    · intro h
      simp [faultRec, h]

/-- Closed instance of the C8 theorem: the severe label keys one or two
fixed strings. -/
theorem recommendations_structure_witness :
    (levelRecs "severe").length = 1 ∨ (levelRecs "severe").length = 2 :=
  (recommendations_structure "severe" []).2.1 (by decide)

/-! ## Evaluation on all-zero and constant signals -/

lemma mean_replicate_zero (n : ℕ) : mean (List.replicate n (0 : ℝ)) = 0 := by
  simp [mean, List.sum_replicate]

lemma zeroMean_replicate (n : ℕ) (c : ℝ) :
    zeroMean (List.replicate n c) = List.replicate n 0 := by
  rcases Nat.eq_zero_or_pos n with h | h
  · subst h; rfl
  · have hm : mean (List.replicate n c) = c := by
      simp only [mean, List.sum_replicate, List.length_replicate,
        nsmul_eq_mul]
      exact mul_div_cancel_left₀ c (Nat.cast_ne_zero.mpr h.ne')
    simp [zeroMean, hm, List.map_replicate]

lemma std_replicate_zero (n : ℕ) : std (List.replicate n (0 : ℝ)) = 0 := by
  simp [std, List.map_replicate, mean_replicate_zero, mean,
    List.sum_replicate]

lemma meanSq_replicate_zero (n : ℕ) :
    meanSq (List.replicate n (0 : ℝ)) = 0 := by
  simp [meanSq, List.map_replicate, mean, List.sum_replicate]

lemma rms_replicate_zero (n : ℕ) : rms (List.replicate n (0 : ℝ)) = 0 := by
  simp [rms, meanSq_replicate_zero]

lemma foldl_max_replicate_zero (n : ℕ) :
    (List.replicate n (0 : ℝ)).foldl max 0 = 0 := by
  induction n with
  | zero => rfl
  | succ n ih => simpa [List.replicate_succ, max_self] using ih

lemma foldl_min_replicate_zero (n : ℕ) :
    (List.replicate n (0 : ℝ)).foldl min 0 = 0 := by
  induction n with
  | zero => rfl
  | succ n ih => simpa [List.replicate_succ, min_self] using ih

lemma peak_replicate_zero (n : ℕ) : peak (List.replicate n (0 : ℝ)) = 0 := by
  simpa [peak, List.map_replicate] using foldl_max_replicate_zero n

lemma peakToPeak_replicate_zero (n : ℕ) :
    peakToPeak (List.replicate n (0 : ℝ)) = 0 := by
  cases n with
  | zero => simp [peakToPeak]
  | succ m =>
    simp [peakToPeak, List.replicate_succ, max_self, min_self,
      foldl_max_replicate_zero, foldl_min_replicate_zero]

lemma kurtosis_replicate_zero (n : ℕ) :
    kurtosis (List.replicate n (0 : ℝ)) = 0 := by
  simp [kurtosis, std_replicate_zero]

lemma skewness_replicate_zero (n : ℕ) :
    skewness (List.replicate n (0 : ℝ)) = 0 := by
  simp [skewness, std_replicate_zero]

lemma extractTime_replicate_zero (n : ℕ) :
    extractTimeFeatures (List.replicate n (0 : ℝ)) = tfZero := by
  simp [extractTimeFeatures, tfZero, mean_replicate_zero, std_replicate_zero,
    rms_replicate_zero, peak_replicate_zero, peakToPeak_replicate_zero,
    meanSq_replicate_zero, kurtosis_replicate_zero, skewness_replicate_zero]

lemma condition_replicate (filt : List ℝ → Option (List ℝ)) (n : ℕ) (c : ℝ)
    (h : filt (List.replicate n 0) = some (List.replicate n 0) ∨
      filt (List.replicate n 0) = none) :
    condition filt (List.replicate n c) = List.replicate n 0 := by
  simp only [condition, zeroMean_replicate, List.length_replicate]
  rcases h with h | h <;> simp [h]

lemma getD_replicate_zero (n j : ℕ) :
    (List.replicate n (0 : ℝ)).getD j 0 = 0 := by
  induction n generalizing j with
  | zero => rfl
  | succ n ih =>
    cases j with
    | zero => rfl
    | succ j => simpa [List.replicate_succ] using ih j

lemma rfft_replicate_zero (n : ℕ) :
    rfft (List.replicate n (0 : ℝ)) =
      (List.range (n / 2 + 1)).map fun _ => 0 := by
  simp only [rfft, List.length_replicate]
  refine List.map_congr_left fun k _ => ?_
  refine Finset.sum_eq_zero fun j _ => ?_
  rw [getD_replicate_zero]
  simp

lemma rfftMag_replicate_zero (n : ℕ) :
    rfftMag (List.replicate n (0 : ℝ)) = List.replicate (n / 2 + 1) 0 := by
  simp [rfftMag, rfft_replicate_zero, List.map_map, Function.comp]

lemma argmaxAux_of_no_greater (l : List ℝ) (i bi : ℕ) (bv : ℝ)
    (h : ∀ v ∈ l, ¬v > bv) : argmaxAux l i bi bv = bi := by
  induction l generalizing i with
  | nil => rfl
  | cons v rest ih =>
    simp only [argmaxAux]
    rw [if_neg (h v (List.mem_cons_self _ _))]
    exact ih _ fun w hw => h w (List.mem_cons_of_mem _ hw)

lemma argmax_of_all_zero (l : List ℝ) (h : ∀ v ∈ l, v = 0) : argmax l = 0 := by
  cases l with
  | nil => rfl
  | cons v rest =>
    simp only [argmax]
    refine argmaxAux_of_no_greater rest 1 0 v fun w hw => ?_
    rw [h w (List.mem_cons_of_mem _ hw), h v (List.mem_cons_self _ _)]
    exact lt_irrefl 0

lemma rfftfreq_getD_zero (n : ℕ) (fs : ℝ) : (rfftfreq n fs).getD 0 0 = 0 := by
  simp [rfftfreq, List.range_succ_eq_map]

lemma bandPower_zero_mag (freq : List ℝ) (m : ℕ) (lo hi : ℝ) :
    bandPower freq (List.replicate m (0 : ℝ)) lo hi = 0 := by
  refine List.sum_eq_zero fun q hq => ?_
  simp only [List.mem_map] at hq
  obtain ⟨p, hp, rfl⟩ := hq
  have h2 : p.2 = 0 := List.eq_of_mem_replicate (List.of_mem_zip hp).2
  rw [h2]
  simp

lemma extractFreq_replicate_zero (n : ℕ) (fs : ℝ) :
    extractFreqFeatures fs (List.replicate n (0 : ℝ)) = ffZero := by
  simp only [extractFreqFeatures, List.length_replicate,
    rfftMag_replicate_zero]
  have hargmax : argmax (List.replicate (n / 2 + 1) (0 : ℝ)) = 0 :=
    argmax_of_all_zero _ fun v hv => List.eq_of_mem_replicate hv
  have hbands : computeBandPowers (rfftfreq n fs)
      (List.replicate (n / 2 + 1) 0) = ⟨0, 0, 0⟩ := by
    simp [computeBandPowers, bandPower_zero_mag]
  have hsp : ((List.replicate (n / 2 + 1) (0 : ℝ)).map fun m => m ^ 2).sum = 0 := by
    simp [List.map_replicate]
  rw [hargmax, rfftfreq_getD_zero, hbands, hsp]
  rfl

/-- Counterexample to claim C4 as stated: on the all-zero signal of length
1000 the peak frequency is 0, which is below 100, so the unbalance rule
fires and the detected fault-type list is not empty. The conditioned signal
is the all-zero signal whether the band-pass fails (modelled here) or
returns the zero signal. -/
theorem zero_signal_fault_types_counterexample :
    detectFaultTypes
        (extractTimeFeatures
          (condition (fun _ => none) (List.replicate 1000 (0 : ℝ))))
        (extractFreqFeatures 12000
          (condition (fun _ => none) (List.replicate 1000 (0 : ℝ)))) ≠ [] := by
  rw [condition_replicate (fun _ => none) 1000 0 (Or.inr rfl),
    extractTime_replicate_zero, extractFreq_replicate_zero]
  norm_num [detectFaultTypes, tfZero, ffZero]

/-- Claim C4 (amended): for the all-zero signal of length 1000 (whose
conditioning yields the all-zero signal whenever the filter preserves the
zero signal or fails, as the zero-phase Butterworth filter does), every
time-domain feature is 0, the fault score is 0, the damage level is
healthy, and the detected fault types are exactly the unbalance hypothesis
with confidence 0.6, which fires because the peak frequency 0 is below
100. -/
theorem zero_signal_analysis (filt : List ℝ → Option (List ℝ))
    (h : filt (List.replicate 1000 0) = some (List.replicate 1000 0) ∨
      filt (List.replicate 1000 0) = none) :
    extractTimeFeatures (condition filt (List.replicate 1000 (0 : ℝ))) =
      tfZero ∧
    calculateFaultScore
      (extractTimeFeatures (condition filt (List.replicate 1000 (0 : ℝ))))
      (extractFreqFeatures 12000
        (condition filt (List.replicate 1000 (0 : ℝ)))) = 0 ∧
    classifyDamageLevel
      (calculateFaultScore
        (extractTimeFeatures (condition filt (List.replicate 1000 (0 : ℝ))))
        (extractFreqFeatures 12000
          (condition filt (List.replicate 1000 (0 : ℝ))))) = "healthy" ∧
    detectFaultTypes
      (extractTimeFeatures (condition filt (List.replicate 1000 (0 : ℝ))))
      (extractFreqFeatures 12000
        (condition filt (List.replicate 1000 (0 : ℝ)))) =
      [⟨"unbalance", 0.6, "Possible rotor unbalance detected"⟩] := by
  rw [condition_replicate filt 1000 0 h, extractTime_replicate_zero,
    extractFreq_replicate_zero]
  have hscore : calculateFaultScore tfZero ffZero = 0 := by
    norm_num [calculateFaultScore, tfZero, ffZero, FrequencyBands.total]
  refine ⟨rfl, hscore, ?_, ?_⟩
  · rw [hscore]
    norm_num [classifyDamageLevel, damageLevels, classifyAux]
  · norm_num [detectFaultTypes, tfZero, ffZero]

/-- Closed instance of the C4 theorem, with the filter failing (the
fallback path of `preprocess`). -/
theorem zero_signal_analysis_witness :
    extractTimeFeatures
        (condition (fun _ => none) (List.replicate 1000 (0 : ℝ))) = tfZero :=
  (zero_signal_analysis (fun _ => none) (Or.inr rfl)).1

/-- Claim C9: a constant signal, once conditioned (the filter preserving the
zero signal or failing), has kurtosis 0, skewness 0 and crest factor 0; and
on inputs shorter than the estimator minimums, here any length-2 input,
both estimators return 0. -/
theorem constant_signal_and_short_input (n : ℕ) (c : ℝ)
    (filt : List ℝ → Option (List ℝ))
    (h : filt (List.replicate n 0) = some (List.replicate n 0) ∨
      filt (List.replicate n 0) = none) :
    (extractTimeFeatures (condition filt (List.replicate n c))).kurtosis = 0 ∧
    (extractTimeFeatures (condition filt (List.replicate n c))).skewness = 0 ∧
    (extractTimeFeatures
      (condition filt (List.replicate n c))).crest_factor = 0 ∧
    (∀ x : List ℝ, x.length < 4 → kurtosis x = 0) ∧
    (∀ x : List ℝ, x.length < 3 → skewness x = 0) := by
  rw [condition_replicate filt n c h, extractTime_replicate_zero]
  refine ⟨rfl, rfl, rfl, fun x hx => ?_, fun x hx => ?_⟩
  · simp only [kurtosis]
    rw [if_pos hx]
  · simp only [skewness]
    rw [if_pos hx]

/-- Closed instance of the C9 theorem: both estimators return 0 on the
length-2 input [1, 2]. -/
theorem constant_signal_and_short_input_witness :
    kurtosis [(1 : ℝ), 2] = 0 ∧ skewness [(1 : ℝ), 2] = 0 :=
  ⟨(constant_signal_and_short_input 5 3 (fun _ => none)
      (Or.inr rfl)).2.2.2.1 [1, 2] (by simp),
   (constant_signal_and_short_input 5 3 (fun _ => none)
      (Or.inr rfl)).2.2.2.2 [1, 2] (by simp)⟩

end Gearbox

end
